import Mathlib

/-!
Shallow embedding of the rascal OpenCL binding (src/src/ll.rs and src/src/hl.rs).

Native handles are modelled as `Nat`; each native entry point's out-of-band
responses (status codes, counts, written bytes) are passed in explicitly as an
environment, and the native calls a function issues are recorded as a trace of
`NativeCall` values.  Rust `Result<T, CLStatus>` becomes `Outcome T`
(`ok`/`err`), with `panic!` modelled by the extra `panicked` constructor;
functions that cannot return an error (e.g. `Clone::clone`, `Drop::drop`, the
facade accessors) use `PanicOr T`.
-/

/-- Status enumeration of the external `opencl` crate (`cl::CLStatus`), the raw
native OpenCL status codes.  The crate is an external collaborator of the
repository; the list follows the OpenCL headers it binds. -/
inductive CLStatus where
  | CL_SUCCESS
  | CL_DEVICE_NOT_FOUND
  | CL_DEVICE_NOT_AVAILABLE
  | CL_COMPILER_NOT_AVAILABLE
  | CL_MEM_OBJECT_ALLOCATION_FAILURE
  | CL_OUT_OF_RESOURCES
  | CL_OUT_OF_HOST_MEMORY
  | CL_PROFILING_INFO_NOT_AVAILABLE
  | CL_MEM_COPY_OVERLAP
  | CL_IMAGE_FORMAT_MISMATCH
  | CL_IMAGE_FORMAT_NOT_SUPPORTED
  | CL_BUILD_PROGRAM_FAILURE
  | CL_MAP_FAILURE
  | CL_MISALIGNED_SUB_BUFFER_OFFSET
  | CL_EXEC_STATUS_ERROR_FOR_EVENTS_IN_WAIT_LIST
  | CL_INVALID_VALUE
  | CL_INVALID_DEVICE_TYPE
  | CL_INVALID_PLATFORM
  | CL_INVALID_DEVICE
  | CL_INVALID_CONTEXT
  | CL_INVALID_QUEUE_PROPERTIES
  | CL_INVALID_COMMAND_QUEUE
  | CL_INVALID_HOST_PTR
  | CL_INVALID_MEM_OBJECT
  | CL_INVALID_IMAGE_FORMAT_DESCRIPTOR
  | CL_INVALID_IMAGE_SIZE
  | CL_INVALID_SAMPLER
  | CL_INVALID_BINARY
  | CL_INVALID_BUILD_OPTIONS
  | CL_INVALID_PROGRAM
  | CL_INVALID_PROGRAM_EXECUTABLE
  | CL_INVALID_KERNEL_NAME
  | CL_INVALID_KERNEL_DEFINITION
  | CL_INVALID_KERNEL
  | CL_INVALID_ARG_INDEX
  | CL_INVALID_ARG_VALUE
  | CL_INVALID_ARG_SIZE
  | CL_INVALID_KERNEL_ARGS
  | CL_INVALID_WORK_DIMENSION
  | CL_INVALID_WORK_GROUP_SIZE
  | CL_INVALID_WORK_ITEM_SIZE
  | CL_INVALID_GLOBAL_OFFSET
  | CL_INVALID_EVENT_WAIT_LIST
  | CL_INVALID_EVENT
  | CL_INVALID_OPERATION
  | CL_INVALID_GL_OBJECT
  | CL_INVALID_BUFFER_SIZE
  | CL_INVALID_MIP_LEVEL
  | CL_INVALID_GLOBAL_WORK_SIZE
  | CL_INVALID_PROPERTY
  | CL_PLATFORM_NOT_FOUND_KHR
deriving DecidableEq

/-- Numeric code table of the status enumeration: the discriminant values the
external crate assigns to `CLStatus`.  `num::FromPrimitive::from_i32` derives
the inverse of this assignment (a match returning `Some` on a known code and
`None` otherwise), embedded here as a first-match lookup. -/
def CLStatus.table : List (Int × CLStatus) :=
  [(0, .CL_SUCCESS),
   (-1, .CL_DEVICE_NOT_FOUND),
   (-2, .CL_DEVICE_NOT_AVAILABLE),
   (-3, .CL_COMPILER_NOT_AVAILABLE),
   (-4, .CL_MEM_OBJECT_ALLOCATION_FAILURE),
   (-5, .CL_OUT_OF_RESOURCES),
   (-6, .CL_OUT_OF_HOST_MEMORY),
   (-7, .CL_PROFILING_INFO_NOT_AVAILABLE),
   (-8, .CL_MEM_COPY_OVERLAP),
   (-9, .CL_IMAGE_FORMAT_MISMATCH),
   (-10, .CL_IMAGE_FORMAT_NOT_SUPPORTED),
   (-11, .CL_BUILD_PROGRAM_FAILURE),
   (-12, .CL_MAP_FAILURE),
   (-13, .CL_MISALIGNED_SUB_BUFFER_OFFSET),
   (-14, .CL_EXEC_STATUS_ERROR_FOR_EVENTS_IN_WAIT_LIST),
   (-30, .CL_INVALID_VALUE),
   (-31, .CL_INVALID_DEVICE_TYPE),
   (-32, .CL_INVALID_PLATFORM),
   (-33, .CL_INVALID_DEVICE),
   (-34, .CL_INVALID_CONTEXT),
   (-35, .CL_INVALID_QUEUE_PROPERTIES),
   (-36, .CL_INVALID_COMMAND_QUEUE),
   (-37, .CL_INVALID_HOST_PTR),
   (-38, .CL_INVALID_MEM_OBJECT),
   (-39, .CL_INVALID_IMAGE_FORMAT_DESCRIPTOR),
   (-40, .CL_INVALID_IMAGE_SIZE),
   (-41, .CL_INVALID_SAMPLER),
   (-42, .CL_INVALID_BINARY),
   (-43, .CL_INVALID_BUILD_OPTIONS),
   (-44, .CL_INVALID_PROGRAM),
   (-45, .CL_INVALID_PROGRAM_EXECUTABLE),
   (-46, .CL_INVALID_KERNEL_NAME),
   (-47, .CL_INVALID_KERNEL_DEFINITION),
   (-48, .CL_INVALID_KERNEL),
   (-49, .CL_INVALID_ARG_INDEX),
   (-50, .CL_INVALID_ARG_VALUE),
   (-51, .CL_INVALID_ARG_SIZE),
   (-52, .CL_INVALID_KERNEL_ARGS),
   (-53, .CL_INVALID_WORK_DIMENSION),
   (-54, .CL_INVALID_WORK_GROUP_SIZE),
   (-55, .CL_INVALID_WORK_ITEM_SIZE),
   (-56, .CL_INVALID_GLOBAL_OFFSET),
   (-57, .CL_INVALID_EVENT_WAIT_LIST),
   (-58, .CL_INVALID_EVENT),
   (-59, .CL_INVALID_OPERATION),
   (-60, .CL_INVALID_GL_OBJECT),
   (-61, .CL_INVALID_BUFFER_SIZE),
   (-62, .CL_INVALID_MIP_LEVEL),
   (-63, .CL_INVALID_GLOBAL_WORK_SIZE),
   (-64, .CL_INVALID_PROPERTY),
   (-1001, .CL_PLATFORM_NOT_FOUND_KHR)]

/-- `num::FromPrimitive::from_i32` for `CLStatus`: `Some` of the status whose
code is `n`, `None` when `n` is not a known status code. -/
def CLStatus.fromI32 (n : Int) : Option CLStatus :=
  (CLStatus.table.find? (fun p => p.1 == n)).map Prod.snd

/-- Result of a fallible operation: Rust `Result<α, CLStatus>` with the extra
`panicked` outcome for `panic!`. -/
inductive Outcome (α : Type) where
  | ok : α → Outcome α
  | err : CLStatus → Outcome α
  | panicked : Outcome α
deriving DecidableEq

/-- Result of an operation whose Rust signature cannot report an error
(`Clone::clone`, `Drop::drop`, facade accessors): either a value or a panic. -/
inductive PanicOr (α : Type) where
  | ok : α → PanicOr α
  | panicked : PanicOr α
deriving DecidableEq

/-- `Result::map` as used by `hl::Platform::create_context`. -/
def Outcome.map {α β : Type} (f : α → β) : Outcome α → Outcome β
  | .ok a => .ok (f a)
  | .err e => .err e
  | .panicked => .panicked

/-- `PanicOr` analogue of `map`, for the facade's `unwrap()`-then-collect. -/
def PanicOr.map {α β : Type} (f : α → β) : PanicOr α → PanicOr β
  | .ok a => .ok (f a)
  | .panicked => .panicked

/-- Rust `Result::unwrap()`: the value on `Ok`, a panic on `Err`. -/
def unwrapR {α : Type} : Outcome α → PanicOr α
  | .ok a => .ok a
  | .err _ => .panicked
  | .panicked => .panicked

/-- Lift a possibly-panicking computation into `Outcome` (a panic stays a
panic; no error is introduced). -/
def outcomeOfPanic {α : Type} : PanicOr α → Outcome α
  | .ok a => .ok a
  | .panicked => .panicked

/-- `check_status` from src/src/ll.rs lines 10-17: the designated success code
maps to `Ok(())`, any other recognized status to `Err(status)`, and an integer
not recognized by the status enumeration panics. -/
def check_status (status_int : Int) : Outcome Unit :=
  match CLStatus.fromI32 status_int with
  | some .CL_SUCCESS => .ok ()
  | some other => .err other
  | none => .panicked

theorem check_status_zero : check_status 0 = Outcome.ok () := rfl

theorem check_status_err (n : Int) (e : CLStatus) (h : CLStatus.fromI32 n = some e)
    (hne : e ≠ CLStatus.CL_SUCCESS) : check_status n = Outcome.err e := by
  unfold check_status
  rw [h]
  cases e <;> first | exact absurd rfl hne | rfl

theorem check_status_none (n : Int) (h : CLStatus.fromI32 n = none) :
    check_status n = Outcome.panicked := by
  unfold check_status
  rw [h]

theorem fromI32_success (n : Int) (h : CLStatus.fromI32 n = some CLStatus.CL_SUCCESS) :
    n = 0 := by
  unfold CLStatus.fromI32 at h
  cases hf : CLStatus.table.find? (fun p => p.1 == n) with
  | none => rw [hf] at h; simp at h
  | some p =>
    rw [hf] at h
    have hp2 : p.2 = CLStatus.CL_SUCCESS := by simpa using h
    have hmem : p ∈ CLStatus.table := List.mem_of_find?_eq_some hf
    have hpred := List.find?_some hf
    have honly : ∀ q ∈ CLStatus.table, q.2 = CLStatus.CL_SUCCESS → q.1 = 0 := by decide
    have hp1 : p.1 = 0 := honly p hmem hp2
    have hn : p.1 = n := by simpa using hpred
    rw [← hn, hp1]

theorem check_status_nonzero (n : Int) (h : n ≠ 0) :
    check_status n = Outcome.panicked ∨
      ∃ e, e ≠ CLStatus.CL_SUCCESS ∧ check_status n = Outcome.err e := by
  cases hf : CLStatus.fromI32 n with
  | none => exact Or.inl (check_status_none n hf)
  | some e =>
    have hne : e ≠ CLStatus.CL_SUCCESS := by
      intro hs
      exact h (fromI32_success n (by rw [hs] at hf; exact hf))
    exact Or.inr ⟨e, hne, check_status_err n e hf hne⟩

/-- Byte-level UTF-8 validity, the check performed by Rust's
`String::from_utf8` (external standard library): the RFC 3629 byte-range
table — ASCII, 2/3/4-byte sequences with overlong and surrogate encodings
excluded.  Bytes are modelled as `Nat` values (a value `≥ 0x100` never
matches any range and is invalid). -/
def utf8Valid : List Nat → Bool
  | [] => true
  | b :: rest =>
    if b ≤ 0x7F then utf8Valid rest
    else if 0xC2 ≤ b ∧ b ≤ 0xDF then
      match rest with
      | b2 :: rest2 =>
        decide (0x80 ≤ b2 ∧ b2 ≤ 0xBF) && utf8Valid rest2
      | [] => false
    else if b = 0xE0 then
      match rest with
      | b2 :: b3 :: rest3 =>
        decide (0xA0 ≤ b2 ∧ b2 ≤ 0xBF) && decide (0x80 ≤ b3 ∧ b3 ≤ 0xBF) &&
          utf8Valid rest3
      | _ => false
    else if 0xE1 ≤ b ∧ b ≤ 0xEC then
      match rest with
      | b2 :: b3 :: rest3 =>
        decide (0x80 ≤ b2 ∧ b2 ≤ 0xBF) && decide (0x80 ≤ b3 ∧ b3 ≤ 0xBF) &&
          utf8Valid rest3
      | _ => false
    else if b = 0xED then
      match rest with
      | b2 :: b3 :: rest3 =>
        decide (0x80 ≤ b2 ∧ b2 ≤ 0x9F) && decide (0x80 ≤ b3 ∧ b3 ≤ 0xBF) &&
          utf8Valid rest3
      | _ => false
    else if 0xEE ≤ b ∧ b ≤ 0xEF then
      match rest with
      | b2 :: b3 :: rest3 =>
        decide (0x80 ≤ b2 ∧ b2 ≤ 0xBF) && decide (0x80 ≤ b3 ∧ b3 ≤ 0xBF) &&
          utf8Valid rest3
      | _ => false
    else if b = 0xF0 then
      match rest with
      | b2 :: b3 :: b4 :: rest4 =>
        decide (0x90 ≤ b2 ∧ b2 ≤ 0xBF) && decide (0x80 ≤ b3 ∧ b3 ≤ 0xBF) &&
          decide (0x80 ≤ b4 ∧ b4 ≤ 0xBF) && utf8Valid rest4
      | _ => false
    else if 0xF1 ≤ b ∧ b ≤ 0xF3 then
      match rest with
      | b2 :: b3 :: b4 :: rest4 =>
        decide (0x80 ≤ b2 ∧ b2 ≤ 0xBF) && decide (0x80 ≤ b3 ∧ b3 ≤ 0xBF) &&
          decide (0x80 ≤ b4 ∧ b4 ≤ 0xBF) && utf8Valid rest4
      | _ => false
    else if b = 0xF4 then
      match rest with
      | b2 :: b3 :: b4 :: rest4 =>
        decide (0x80 ≤ b2 ∧ b2 ≤ 0x8F) && decide (0x80 ≤ b3 ∧ b3 ≤ 0xBF) &&
          decide (0x80 ≤ b4 ∧ b4 ≤ 0xBF) && utf8Valid rest4
      | _ => false
    else false

/-- `string_from_cstring_buf` from src/src/ll.rs lines 73-88: pop the last
byte of the buffer; if it is the null terminator, the remainder must be valid
UTF-8 and becomes the string (a Rust `String` is its UTF-8 bytes, so the
result is the remaining byte list); a non-null last byte, an empty buffer, or
invalid UTF-8 all panic. -/
def string_from_cstring_buf (buf : List Nat) : PanicOr (List Nat) :=
  match buf.getLast? with
  | some 0 =>
    if utf8Valid buf.dropLast then .ok buf.dropLast else .panicked
  | some _ => .panicked
  | none => .panicked

/-- Opaque native platform identifier (`pub struct PlatformId(cl_platform_id)`). -/
structure PlatformId where
  raw : Nat
deriving DecidableEq

/-- Opaque native device identifier (`pub struct DeviceId(cl_device_id)`). -/
structure DeviceId where
  raw : Nat
deriving DecidableEq

/-- Owning wrapper around a native context handle (`pub struct Context(cl_context)`). -/
structure Context where
  raw : Nat
deriving DecidableEq

/-- Owning wrapper around a native command queue handle. -/
structure CommandQueue where
  raw : Nat
deriving DecidableEq

/-- Owning wrapper around a native memory object handle (`pub struct Mem(cl_mem)`). -/
structure Mem where
  raw : Nat
deriving DecidableEq

/-- The `DeviceType` bit-set from the `device_type` module of src/src/ll.rs
(a `bitflags!` struct over `cl_device_type`, a 64-bit bit-field). -/
structure DeviceType where
  bits : Nat
deriving DecidableEq

/-- `CL_DEVICE_TYPE_DEFAULT` (bit 0). -/
def device_type.DEFAULT : DeviceType := ⟨1⟩

/-- `CL_DEVICE_TYPE_CPU` (bit 1). -/
def device_type.CPU : DeviceType := ⟨2⟩

/-- `CL_DEVICE_TYPE_GPU` (bit 2). -/
def device_type.GPU : DeviceType := ⟨4⟩

/-- `CL_DEVICE_TYPE_ACCELERATOR` (bit 3). -/
def device_type.ACCELERATOR : DeviceType := ⟨8⟩

/-- `CL_DEVICE_TYPE_ALL` (`0xFFFFFFFF`). -/
def device_type.ALL : DeviceType := ⟨0xFFFFFFFF⟩

/-- `bitflags!`-generated `all()`: the union of every declared flag. -/
def DeviceType.allFlagBits : Nat :=
  device_type.DEFAULT.bits ||| device_type.GPU.bits ||| device_type.CPU.bits |||
    device_type.ACCELERATOR.bits ||| device_type.ALL.bits

/-- `bitflags!`-generated `from_bits`: `None` when the value has a bit set
outside `all()` (the complement is taken in the 64-bit carrier of
`cl_device_type`), otherwise `Some` of the bit-set. -/
def DeviceType.from_bits (v : Nat) : Option DeviceType :=
  if v &&& ((2 ^ 64 - 1) ^^^ DeviceType.allFlagBits) ≠ 0 then none
  else some ⟨v⟩

/-- `bitflags!`-generated `contains`: all of the other set's bits are present. -/
def DeviceType.contains (s other : DeviceType) : Bool :=
  s.bits &&& other.bits == other.bits

/-- One call into the native OpenCL entry points, as issued by the binding.
Arguments the binding passes out of its own data are recorded (handles, the
device-type bits, buffer lengths); out-parameters are part of the
environments instead. -/
inductive NativeCall where
  | getPlatformIDsCount
  | getPlatformIDsFill (len : Nat)
  | getDeviceIDsCount (platform : Nat) (bits : Nat)
  | getDeviceIDsFill (platform : Nat) (bits : Nat) (len : Nat)
  | createContext (platform : Nat) (devices : List Nat)
  | retainMem (handle : Nat)
  | releaseMem (handle : Nat)
  | retainCommandQueue (handle : Nat)
  | releaseCommandQueue (handle : Nat)
  | retainContext (handle : Nat)
  | releaseContext (handle : Nat)
deriving DecidableEq

/-- Responses of the native layer to a two-call size-then-fill query: the
status and count/size returned by the first call, and the status and bytes
(or handles) written by the second. -/
structure TwoCallEnv where
  sizeStatus : Int
  size : Nat
  fillStatus : Int
  written : List Nat
deriving DecidableEq

/-- Contents of a caller-allocated buffer of length `n` (initialized to zero)
after the native layer wrote `w` into it. -/
def fillBuf (n : Nat) (w : List Nat) : List Nat :=
  w.take n ++ List.replicate (n - w.length) 0

/-- `get_platform_ids` from src/src/ll.rs lines 274-285: query the platform
count, check the status, allocate a vector of exactly that length, fill it
with a second call, check again, and return the identifiers in the order the
native layer produced them. -/
def get_platform_ids (env : TwoCallEnv) :
    Outcome (List PlatformId) × List NativeCall :=
  match check_status env.sizeStatus with
  | .panicked => (.panicked, [.getPlatformIDsCount])
  | .err e => (.err e, [.getPlatformIDsCount])
  | .ok _ =>
    let ids := fillBuf env.size env.written
    match check_status env.fillStatus with
    | .panicked => (.panicked, [.getPlatformIDsCount, .getPlatformIDsFill env.size])
    | .err e => (.err e, [.getPlatformIDsCount, .getPlatformIDsFill env.size])
    | .ok _ =>
      (.ok (ids.map PlatformId.mk), [.getPlatformIDsCount, .getPlatformIDsFill env.size])

/-- `get_device_ids` from src/src/ll.rs lines 302-317: the same two-call
idiom scoped to a platform and a device-type bit-set filter (whose raw bits
are what the binding passes to the native call). -/
def get_device_ids (platform : PlatformId) (device_type_arg : DeviceType)
    (env : TwoCallEnv) : Outcome (List DeviceId) × List NativeCall :=
  match check_status env.sizeStatus with
  | .panicked => (.panicked, [.getDeviceIDsCount platform.raw device_type_arg.bits])
  | .err e => (.err e, [.getDeviceIDsCount platform.raw device_type_arg.bits])
  | .ok _ =>
    let ids := fillBuf env.size env.written
    match check_status env.fillStatus with
    | .panicked =>
      (.panicked,
       [.getDeviceIDsCount platform.raw device_type_arg.bits,
        .getDeviceIDsFill platform.raw device_type_arg.bits env.size])
    | .err e =>
      (.err e,
       [.getDeviceIDsCount platform.raw device_type_arg.bits,
        .getDeviceIDsFill platform.raw device_type_arg.bits env.size])
    | .ok _ =>
      (.ok (ids.map DeviceId.mk),
       [.getDeviceIDsCount platform.raw device_type_arg.bits,
        .getDeviceIDsFill platform.raw device_type_arg.bits env.size])

/-- The `PlatformInfo` property selector enumeration of src/src/ll.rs. -/
inductive PlatformInfo where
  | Profile
  | Version
  | Name
  | Vendor
  | Extensions
deriving DecidableEq

/-- `get_platform_info` from src/src/ll.rs lines 287-300: two-call string
query — ask the byte length, allocate exactly that many bytes, fill, then
decode through `string_from_cstring_buf`. -/
def get_platform_info (platform : PlatformId) (info : PlatformInfo)
    (env : TwoCallEnv) : Outcome (List Nat) :=
  match check_status env.sizeStatus with
  | .panicked => .panicked
  | .err e => .err e
  | .ok _ =>
    let bytes := fillBuf env.size env.written
    match check_status env.fillStatus with
    | .panicked => .panicked
    | .err e => .err e
    | .ok _ => outcomeOfPanic (string_from_cstring_buf bytes)

/-- The `DeviceInfoString` property selector enumeration of src/src/ll.rs. -/
inductive DeviceInfoString where
  | Name
  | Profile
  | Vendor
  | DeviceVersion
  | DriverVersion
  | Extensions
deriving DecidableEq

/-- `impl DeviceInfo for DeviceInfoString` (src/src/ll.rs lines 200-216):
identical two-call string query against a device. -/
def DeviceInfoString.get_device_info (info : DeviceInfoString) (device : DeviceId)
    (env : TwoCallEnv) : Outcome (List Nat) :=
  match check_status env.sizeStatus with
  | .panicked => .panicked
  | .err e => .err e
  | .ok _ =>
    let bytes := fillBuf env.size env.written
    match check_status env.fillStatus with
    | .panicked => .panicked
    | .err e => .err e
    | .ok _ => outcomeOfPanic (string_from_cstring_buf bytes)

/-- The `DeviceInfoClUint` property selector enumeration of src/src/ll.rs. -/
inductive DeviceInfoClUint where
  | MaxClockFrequency
  | MaxComputeUnits
  | MaxConstantArgs
  | MaxReadImageArgs
  | MaxSamplers
  | MaxWorkItemDimensions
  | MaxWriteImageArgs
  | MemBaseAddrAlign
  | MinDataTypeAlignSize
  | VendorId
  | PreferredVectorWidthChar
  | PreferredVectorWidthShort
  | PreferredVectorWidthInt
  | PreferredVectorWidthLong
  | PreferredVectorWidthFloat
  | PreferredVectorWidthDouble
deriving DecidableEq

/-- Native response to a fixed-size query: a status and the value written
into the caller's buffer. -/
structure FixedQueryEnv where
  status : Int
  value : Nat
deriving DecidableEq

/-- `impl DeviceInfo for DeviceInfoClUint` (src/src/ll.rs lines 239-252):
fixed-size unsigned-integer query — check the status, return the value the
native layer wrote. -/
def DeviceInfoClUint.get_device_info (info : DeviceInfoClUint) (device : DeviceId)
    (env : FixedQueryEnv) : Outcome Nat :=
  match check_status env.status with
  | .panicked => .panicked
  | .err e => .err e
  | .ok _ => .ok env.value

/-- `impl DeviceInfo for DeviceInfoDeviceType` (src/src/ll.rs lines 254-272):
fixed-size bit-field query; the raw 64-bit value is decoded with
`DeviceType::from_bits`, and an unrecognized bit pattern panics. -/
def DeviceInfoDeviceType.get_device_info (device : DeviceId)
    (env : FixedQueryEnv) : Outcome DeviceType :=
  match check_status env.status with
  | .panicked => .panicked
  | .err e => .err e
  | .ok _ =>
    match DeviceType.from_bits env.value with
    | some dt => .ok dt
    | none => .panicked

/-- Native response to `clCreateContext`: the status written through the
error out-pointer and the returned context handle. -/
structure CreateContextEnv where
  errStatus : Int
  ctxHandle : Nat
deriving DecidableEq

/-- `create_context` from src/src/ll.rs lines 339-355: build the property
list, pass the device list and the error callback, check the out-parameter
status, and wrap the returned handle. -/
def create_context (platform : PlatformId) (devices : List DeviceId)
    (env : CreateContextEnv) : Outcome Context × List NativeCall :=
  ((match check_status env.errStatus with
    | .panicked => .panicked
    | .err e => .err e
    | .ok _ => .ok ⟨env.ctxHandle⟩),
   [.createContext platform.raw (devices.map DeviceId.raw)])

/-- Modelled from the spec: the native `clCreateContext` entry point is not
part of this repository (the `opencl` crate and the OpenCL runtime are
external collaborators).  Per the spec, a call with an empty device list is
rejected by the native layer with a recoverable error status; OpenCL reports
`CL_INVALID_VALUE` (-30) when `num_devices` is zero. -/
def nativeCreateContextErr (devices : List DeviceId) : Int :=
  if devices.isEmpty then -30 else 0

/-- `Mem::try_clone` (src/src/ll.rs lines 389-396): issue one
`clRetainMemObject` call on the wrapped handle; on success return a new
wrapper around the same handle, otherwise propagate the checked status. -/
def Mem.try_clone (m : Mem) (retainStatus : Int) : Outcome Mem × List NativeCall :=
  ((match check_status retainStatus with
    | .panicked => .panicked
    | .err e => .err e
    | .ok _ => .ok ⟨m.raw⟩),
   [.retainMem m.raw])

/-- `impl Clone for Mem` (src/src/ll.rs lines 398-406): `try_clone`, panicking
on a failed retain. -/
def Mem.clone (m : Mem) (retainStatus : Int) : PanicOr Mem × List NativeCall :=
  match m.try_clone retainStatus with
  | (.ok mem, tr) => (.ok mem, tr)
  | (.err _, tr) => (.panicked, tr)
  | (.panicked, tr) => (.panicked, tr)

/-- `impl Drop for Mem` (src/src/ll.rs lines 408-418): issue one
`clReleaseMemObject` call; a non-success status panics. -/
def Mem.drop (m : Mem) (releaseStatus : Int) : PanicOr Unit × List NativeCall :=
  ((match check_status releaseStatus with
    | .panicked => .panicked
    | .err _ => .panicked
    | .ok _ => .ok ()),
   [.releaseMem m.raw])

/-- `CommandQueue::try_clone` (src/src/ll.rs lines 433-440): one
`clRetainCommandQueue` call, new wrapper around the same handle on success. -/
def CommandQueue.try_clone (q : CommandQueue) (retainStatus : Int) :
    Outcome CommandQueue × List NativeCall :=
  ((match check_status retainStatus with
    | .panicked => .panicked
    | .err e => .err e
    | .ok _ => .ok ⟨q.raw⟩),
   [.retainCommandQueue q.raw])

/-- `impl Clone for CommandQueue` (src/src/ll.rs lines 442-450). -/
def CommandQueue.clone (q : CommandQueue) (retainStatus : Int) :
    PanicOr CommandQueue × List NativeCall :=
  match q.try_clone retainStatus with
  | (.ok queue, tr) => (.ok queue, tr)
  | (.err _, tr) => (.panicked, tr)
  | (.panicked, tr) => (.panicked, tr)

/-- `impl Drop for CommandQueue` (src/src/ll.rs lines 452-463). -/
def CommandQueue.drop (q : CommandQueue) (releaseStatus : Int) :
    PanicOr Unit × List NativeCall :=
  ((match check_status releaseStatus with
    | .panicked => .panicked
    | .err _ => .panicked
    | .ok _ => .ok ()),
   [.releaseCommandQueue q.raw])

/-- `Context::try_clone` (src/src/ll.rs lines 465-472): one `clRetainContext`
call, new wrapper around the same handle on success. -/
def Context.try_clone (c : Context) (retainStatus : Int) :
    Outcome Context × List NativeCall :=
  ((match check_status retainStatus with
    | .panicked => .panicked
    | .err e => .err e
    | .ok _ => .ok ⟨c.raw⟩),
   [.retainContext c.raw])

/-- `impl Clone for Context` (src/src/ll.rs lines 474-482). -/
def Context.clone (c : Context) (retainStatus : Int) :
    PanicOr Context × List NativeCall :=
  match c.try_clone retainStatus with
  | (.ok context, tr) => (.ok context, tr)
  | (.err _, tr) => (.panicked, tr)
  | (.panicked, tr) => (.panicked, tr)

/-- `impl Drop for Context` (src/src/ll.rs lines 484-494). -/
def Context.drop (c : Context) (releaseStatus : Int) :
    PanicOr Unit × List NativeCall :=
  ((match check_status releaseStatus with
    | .panicked => .panicked
    | .err _ => .panicked
    | .ok _ => .ok ()),
   [.releaseContext c.raw])

/-- Whether a native call is one of the three retain entry points. -/
def NativeCall.isRetain : NativeCall → Bool
  | .retainMem _ => true
  | .retainCommandQueue _ => true
  | .retainContext _ => true
  | _ => false

/-- Whether a native call is one of the three release entry points. -/
def NativeCall.isRelease : NativeCall → Bool
  | .releaseMem _ => true
  | .releaseCommandQueue _ => true
  | .releaseContext _ => true
  | _ => false

/-- Number of retain calls in a trace. -/
def countRetains (tr : List NativeCall) : Nat :=
  (tr.filter NativeCall.isRetain).length

/-- Number of release calls in a trace. -/
def countReleases (tr : List NativeCall) : Nat :=
  (tr.filter NativeCall.isRelease).length

/-- One lifetime operation on a pool of live wrappers of one resource kind:
duplicate the `i`-th live wrapper (`try_clone`, the native retain returning
`st`), or destroy it (the wrapper is dropped, the native release returning
`st`). -/
inductive RcOp where
  | dup (i : Nat) (st : Int)
  | destroy (i : Nat) (st : Int)
deriving DecidableEq

/-- Number of duplicate operations in a sequence. -/
def dupCount : List RcOp → Nat
  | [] => 0
  | .dup _ _ :: rest => dupCount rest + 1
  | .destroy _ _ :: rest => dupCount rest

/-- Number of destroy operations in a sequence. -/
def destroyCount : List RcOp → Nat
  | [] => 0
  | .dup _ _ :: rest => destroyCount rest
  | .destroy _ _ :: rest => destroyCount rest + 1

/-- Run a sequence of duplicate/destroy operations over a pool of live
wrappers, accumulating the native-call trace.  `tc` and `dr` are the
wrapper's `try_clone` and `drop`; the run yields `none` if an operation
names a wrapper that is not alive or if any native call fails (a failed
duplicate leaves nothing to add, a failed destroy panics). -/
def runRcOps {W : Type} (tc : W → Int → Outcome W × List NativeCall)
    (dr : W → Int → PanicOr Unit × List NativeCall) :
    List W → List RcOp → Option (List W × List NativeCall)
  | live, [] => some (live, [])
  | live, RcOp.dup i st :: rest =>
    match live[i]? with
    | none => none
    | some w =>
      match tc w st with
      | (Outcome.ok w2, tr) =>
        (runRcOps tc dr (live ++ [w2]) rest).map (fun p => (p.1, tr ++ p.2))
      | (Outcome.err _, _) => none
      | (Outcome.panicked, _) => none
  | live, RcOp.destroy i st :: rest =>
    match live[i]? with
    | none => none
    | some w =>
      match dr w st with
      | (PanicOr.ok _, tr) =>
        (runRcOps tc dr (live.eraseIdx i) rest).map (fun p => (p.1, tr ++ p.2))
      | (PanicOr.panicked, _) => none

/-- Alias standing for the `ll::Context` qualification used by src/src/hl.rs
(inside the facade namespace the bare name would refer to the facade type). -/
abbrev llContext := Context

/-- Alias standing for the `ll::create_context` qualification used by
src/src/hl.rs. -/
abbrev llCreateContext := create_context

/-- Facade value type `hl::Platform` (src/src/hl.rs line 5): a copyable
wrapper around a `PlatformId`. -/
structure hl.Platform where
  pid : PlatformId
deriving DecidableEq

/-- Facade value type `hl::Device` (src/src/hl.rs line 8). -/
structure hl.Device where
  did : DeviceId
deriving DecidableEq

/-- Facade owning type `hl::Context` (src/src/hl.rs line 11). -/
structure hl.Context where
  ctx : llContext
deriving DecidableEq

/-- `hl::Platform::get_devices` (src/src/hl.rs lines 22-25): enumerate with
the `ALL` device-type filter — the method takes no device-type parameter —
unwrap the result (panicking on error), and wrap each identifier. -/
def hl.Platform.get_devices (p : hl.Platform) (env : TwoCallEnv) :
    PanicOr (List hl.Device) × List NativeCall :=
  let r := get_device_ids p.pid device_type.ALL env
  ((unwrapR r.1).map (List.map hl.Device.mk), r.2)

/-- `hl::Platform::create_context` (src/src/hl.rs lines 27-33): forward the
unwrapped device identifiers and return the `Result` unchanged, mapping the
success value into the facade `Context`. -/
def hl.Platform.create_context (p : hl.Platform) (devices : List hl.Device)
    (env : CreateContextEnv) : Outcome hl.Context × List NativeCall :=
  let r := llCreateContext p.pid (devices.map hl.Device.did) env
  (r.1.map hl.Context.mk, r.2)

/-- `hl::Platform::name` (src/src/hl.rs lines 35-37): string query, unwrapped. -/
def hl.Platform.name (p : hl.Platform) (env : TwoCallEnv) : PanicOr (List Nat) :=
  unwrapR (get_platform_info p.pid PlatformInfo.Name env)

/-- `hl::Platform::version` (src/src/hl.rs lines 39-41). -/
def hl.Platform.version (p : hl.Platform) (env : TwoCallEnv) : PanicOr (List Nat) :=
  unwrapR (get_platform_info p.pid PlatformInfo.Version env)

/-- `hl::Platform::profile` (src/src/hl.rs lines 43-45). -/
def hl.Platform.profile (p : hl.Platform) (env : TwoCallEnv) : PanicOr (List Nat) :=
  unwrapR (get_platform_info p.pid PlatformInfo.Profile env)

/-- `hl::Platform::vendor` (src/src/hl.rs lines 47-49). -/
def hl.Platform.vendor (p : hl.Platform) (env : TwoCallEnv) : PanicOr (List Nat) :=
  unwrapR (get_platform_info p.pid PlatformInfo.Vendor env)

/-- `hl::Platform::extensions` (src/src/hl.rs lines 51-53). -/
def hl.Platform.extensions (p : hl.Platform) (env : TwoCallEnv) : PanicOr (List Nat) :=
  unwrapR (get_platform_info p.pid PlatformInfo.Extensions env)

/-- `hl::Device::name` (src/src/hl.rs lines 57-59). -/
def hl.Device.name (d : hl.Device) (env : TwoCallEnv) : PanicOr (List Nat) :=
  unwrapR (DeviceInfoString.Name.get_device_info d.did env)

/-- `hl::Device::profile` (src/src/hl.rs lines 61-63). -/
def hl.Device.profile (d : hl.Device) (env : TwoCallEnv) : PanicOr (List Nat) :=
  unwrapR (DeviceInfoString.Profile.get_device_info d.did env)

/-- `hl::Device::vendor` (src/src/hl.rs lines 65-67). -/
def hl.Device.vendor (d : hl.Device) (env : TwoCallEnv) : PanicOr (List Nat) :=
  unwrapR (DeviceInfoString.Vendor.get_device_info d.did env)

/-- `hl::Device::device_version` (src/src/hl.rs lines 69-71). -/
def hl.Device.device_version (d : hl.Device) (env : TwoCallEnv) : PanicOr (List Nat) :=
  unwrapR (DeviceInfoString.DeviceVersion.get_device_info d.did env)

/-- `hl::Device::driver_version` (src/src/hl.rs lines 73-75). -/
def hl.Device.driver_version (d : hl.Device) (env : TwoCallEnv) : PanicOr (List Nat) :=
  unwrapR (DeviceInfoString.DriverVersion.get_device_info d.did env)

/-- `hl::Device::extensions` (src/src/hl.rs lines 77-79). -/
def hl.Device.extensions (d : hl.Device) (env : TwoCallEnv) : PanicOr (List Nat) :=
  unwrapR (DeviceInfoString.Extensions.get_device_info d.did env)

/-- `hl::Device::device_type` (src/src/hl.rs lines 81-83). -/
def hl.Device.device_type (d : hl.Device) (env : FixedQueryEnv) : PanicOr DeviceType :=
  unwrapR (DeviceInfoDeviceType.get_device_info d.did env)

/-- `hl::Device::num_compute_units` (src/src/hl.rs lines 85-87): the
`MaxComputeUnits` integer query, unwrapped (the `as usize` widening is the
identity on the modelled value). -/
def hl.Device.num_compute_units (d : hl.Device) (env : FixedQueryEnv) : PanicOr Nat :=
  unwrapR (DeviceInfoClUint.MaxComputeUnits.get_device_info d.did env)

theorem countRetains_append (a b : List NativeCall) :
    countRetains (a ++ b) = countRetains a + countRetains b := by
  simp [countRetains, List.filter_append]

theorem countReleases_append (a b : List NativeCall) :
    countReleases (a ++ b) = countReleases a + countReleases b := by
  simp [countReleases, List.filter_append]

theorem fillBuf_length (n : Nat) (w : List Nat) : (fillBuf n w).length = n := by
  simp [fillBuf]
  omega

theorem fillBuf_of_length_eq {n : Nat} {w : List Nat} (h : w.length = n) :
    fillBuf n w = w := by
  subst h
  simp [fillBuf]

theorem unwrapR_err {α : Type} {o : Outcome α} {e : CLStatus} (h : o = .err e) :
    unwrapR o = .panicked := by
  rw [h]
  rfl

theorem unwrapR_ok {α : Type} {o : Outcome α} {v : α} (h : o = .ok v) :
    unwrapR o = .ok v := by
  rw [h]
  rfl

theorem land_hi_ne_zero {v : Nat} (h64 : v < 2 ^ 64) (h32 : 2 ^ 32 ≤ v) :
    v &&& ((2 ^ 32 - 1) <<< 32) ≠ 0 := by
  intro h0
  have hbits : ∀ j, 32 ≤ j → v.testBit j = false := by
    intro j hj
    by_cases hj64 : j < 64
    · have hmask : ((2 ^ 32 - 1 : Nat) <<< 32).testBit j = true := by
        rw [Nat.testBit_shiftLeft]
        simp only [Nat.testBit_two_pow_sub_one]
        simp only [ge_iff_le, Bool.and_eq_true, decide_eq_true_eq]
        omega
      have hz := congrArg (fun x => Nat.testBit x j) h0
      simp only [Nat.testBit_and, hmask, Bool.and_true, Nat.zero_testBit] at hz
      exact hz
    · exact Nat.testBit_lt_two_pow
        (lt_of_lt_of_le h64 (Nat.pow_le_pow_right (by norm_num) (by omega)))
  have hvlt : v < 2 ^ 32 := by
    have : v = v % 2 ^ 32 := by
      conv_lhs => rw [← Nat.mod_add_div v (2 ^ 32)]
      have hdiv : v / 2 ^ 32 = 0 := by
        have hsr : v >>> 32 = 0 := by
          apply Nat.eq_of_testBit_eq
          intro i
          rw [Nat.testBit_shiftRight, Nat.zero_testBit]
          exact hbits (32 + i) (by omega)
        rwa [Nat.shiftRight_eq_div_pow] at hsr
      rw [hdiv]
      simp
    rw [this]
    exact Nat.mod_lt v (by norm_num)
  omega

theorem runRcOps_counts {W : Type} (tc : W → Int → Outcome W × List NativeCall)
    (dr : W → Int → PanicOr Unit × List NativeCall)
    (htc : ∀ w st, countRetains (tc w st).2 = 1 ∧ countReleases (tc w st).2 = 0)
    (hdr : ∀ w st, countRetains (dr w st).2 = 0 ∧ countReleases (dr w st).2 = 1) :
    ∀ (ops : List RcOp) (live fin : List W) (tr : List NativeCall),
      runRcOps tc dr live ops = some (fin, tr) →
      countRetains tr = dupCount ops ∧ countReleases tr = destroyCount ops ∧
        live.length + dupCount ops = fin.length + destroyCount ops := by
  intro ops
  induction ops with
  | nil =>
    intro live fin tr h
    simp only [runRcOps, Option.some.injEq, Prod.mk.injEq] at h
    obtain ⟨h1, h2⟩ := h
    subst h1
    subst h2
    simp [countRetains, countReleases, dupCount, destroyCount]
  | cons op rest ih =>
    intro live fin tr h
    cases op with
    | dup i st =>
      cases hg : live[i]? with
      | none => simp only [runRcOps, hg] at h; exact Option.noConfusion h
      | some w =>
        simp only [runRcOps, hg] at h
        cases htcw : tc w st with
        | mk res tr1 =>
          rw [htcw] at h
          cases res with
          | err e => exact Option.noConfusion h
          | panicked => exact Option.noConfusion h
          | ok w2 =>
            have h2 : Option.map (fun p => (p.1, tr1 ++ p.2))
                (runRcOps tc dr (live ++ [w2]) rest) = some (fin, tr) := h
            cases hrec : runRcOps tc dr (live ++ [w2]) rest with
            | none => rw [hrec] at h2; exact Option.noConfusion h2
            | some pr =>
              rw [hrec] at h2
              simp only [Option.map_some', Option.some.injEq, Prod.mk.injEq] at h2
              obtain ⟨hfin, htr⟩ := h2
              obtain ⟨c1, c2, c3⟩ := ih (live ++ [w2]) pr.1 pr.2 (by rw [hrec])
              have htr1 : (tc w st).2 = tr1 := by rw [htcw]
              have hr1 : countRetains tr1 = 1 := by rw [← htr1]; exact (htc w st).1
              have hr0 : countReleases tr1 = 0 := by rw [← htr1]; exact (htc w st).2
              subst htr
              subst hfin
              rw [countRetains_append, countReleases_append]
              simp only [List.length_append, List.length_cons, List.length_nil] at c3 ⊢
              simp only [dupCount, destroyCount]
              omega
    | destroy i st =>
      cases hg : live[i]? with
      | none => simp only [runRcOps, hg] at h; exact Option.noConfusion h
      | some w =>
        simp only [runRcOps, hg] at h
        cases hdrw : dr w st with
        | mk res tr1 =>
          rw [hdrw] at h
          cases res with
          | panicked => exact Option.noConfusion h
          | ok u =>
            have h2 : Option.map (fun p => (p.1, tr1 ++ p.2))
                (runRcOps tc dr (live.eraseIdx i) rest) = some (fin, tr) := h
            cases hrec : runRcOps tc dr (live.eraseIdx i) rest with
            | none => rw [hrec] at h2; exact Option.noConfusion h2
            | some pr =>
              rw [hrec] at h2
              simp only [Option.map_some', Option.some.injEq, Prod.mk.injEq] at h2
              obtain ⟨hfin, htr⟩ := h2
              obtain ⟨c1, c2, c3⟩ := ih (live.eraseIdx i) pr.1 pr.2 (by rw [hrec])
              have htr1 : (dr w st).2 = tr1 := by rw [hdrw]
              have hr0 : countRetains tr1 = 0 := by rw [← htr1]; exact (hdr w st).1
              have hr1 : countReleases tr1 = 1 := by rw [← htr1]; exact (hdr w st).2
              have hilt : i < live.length := (List.getElem?_eq_some_iff.mp hg).1
              have herase : (live.eraseIdx i).length = live.length - 1 :=
                List.length_eraseIdx_of_lt hilt
              subst htr
              subst hfin
              rw [countRetains_append, countReleases_append]
              rw [herase] at c3
              simp only [dupCount, destroyCount]
              omega

theorem get_device_ids_trace (p : PlatformId) (dt : DeviceType) (env : TwoCallEnv) :
    (get_device_ids p dt env).2 = [NativeCall.getDeviceIDsCount p.raw dt.bits] ∨
    (get_device_ids p dt env).2 =
      [NativeCall.getDeviceIDsCount p.raw dt.bits,
       NativeCall.getDeviceIDsFill p.raw dt.bits env.size] := by
  unfold get_device_ids
  cases check_status env.sizeStatus with
  | panicked => exact Or.inl rfl
  | err e => exact Or.inl rfl
  | ok u =>
    cases check_status env.fillStatus with
    | panicked => exact Or.inr rfl
    | err e => exact Or.inr rfl
    | ok u2 => exact Or.inr rfl

/-- C1: over any sequence of duplicate (`try_clone`) and destroy (`drop`)
operations on a pool of live `Mem` (resp. `CommandQueue`, `Context`) wrappers
that runs to completion, the trace contains exactly one native retain per
duplication and exactly one native release per destruction, and when every
wrapper has been destroyed (`fin = []`) the net native refcount delta —
one `+1` per originally created wrapper, `+1` per retain, `-1` per release —
is zero. -/
theorem C1_refcount_balance :
    (∀ (ops : List RcOp) (live fin : List Mem) (tr : List NativeCall),
       runRcOps Mem.try_clone Mem.drop live ops = some (fin, tr) →
       countRetains tr = dupCount ops ∧ countReleases tr = destroyCount ops ∧
         live.length + dupCount ops = fin.length + destroyCount ops ∧
         (fin = [] → live.length + dupCount ops = destroyCount ops))
  ∧ (∀ (ops : List RcOp) (live fin : List CommandQueue) (tr : List NativeCall),
       runRcOps CommandQueue.try_clone CommandQueue.drop live ops = some (fin, tr) →
       countRetains tr = dupCount ops ∧ countReleases tr = destroyCount ops ∧
         live.length + dupCount ops = fin.length + destroyCount ops ∧
         (fin = [] → live.length + dupCount ops = destroyCount ops))
  ∧ (∀ (ops : List RcOp) (live fin : List Context) (tr : List NativeCall),
       runRcOps Context.try_clone Context.drop live ops = some (fin, tr) →
       countRetains tr = dupCount ops ∧ countReleases tr = destroyCount ops ∧
         live.length + dupCount ops = fin.length + destroyCount ops ∧
         (fin = [] → live.length + dupCount ops = destroyCount ops)) := by
  refine ⟨?_, ?_, ?_⟩
  · intro ops live fin tr h
    obtain ⟨c1, c2, c3⟩ :=
      runRcOps_counts Mem.try_clone Mem.drop
        (fun w st => ⟨rfl, rfl⟩) (fun w st => ⟨rfl, rfl⟩) ops live fin tr h
    refine ⟨c1, c2, c3, fun hf => ?_⟩
    rw [hf] at c3
    simpa using c3
  · intro ops live fin tr h
    obtain ⟨c1, c2, c3⟩ :=
      runRcOps_counts CommandQueue.try_clone CommandQueue.drop
        (fun w st => ⟨rfl, rfl⟩) (fun w st => ⟨rfl, rfl⟩) ops live fin tr h
    refine ⟨c1, c2, c3, fun hf => ?_⟩
    rw [hf] at c3
    simpa using c3
  · intro ops live fin tr h
    obtain ⟨c1, c2, c3⟩ :=
      runRcOps_counts Context.try_clone Context.drop
        (fun w st => ⟨rfl, rfl⟩) (fun w st => ⟨rfl, rfl⟩) ops live fin tr h
    refine ⟨c1, c2, c3, fun hf => ?_⟩
    rw [hf] at c3
    simpa using c3

/-- C1 witness: one concrete closed run over a single created `Mem` wrapper,
one duplication, two destructions. -/
theorem C1_refcount_balance_witness :
    countRetains [NativeCall.retainMem 5, NativeCall.releaseMem 5, NativeCall.releaseMem 5] =
        dupCount [RcOp.dup 0 0, RcOp.destroy 0 0, RcOp.destroy 0 0] ∧
      countReleases [NativeCall.retainMem 5, NativeCall.releaseMem 5, NativeCall.releaseMem 5] =
        destroyCount [RcOp.dup 0 0, RcOp.destroy 0 0, RcOp.destroy 0 0] ∧
      [Mem.mk 5].length + dupCount [RcOp.dup 0 0, RcOp.destroy 0 0, RcOp.destroy 0 0] =
        ([] : List Mem).length + destroyCount [RcOp.dup 0 0, RcOp.destroy 0 0, RcOp.destroy 0 0] ∧
      (([] : List Mem) = [] →
        [Mem.mk 5].length + dupCount [RcOp.dup 0 0, RcOp.destroy 0 0, RcOp.destroy 0 0] =
          destroyCount [RcOp.dup 0 0, RcOp.destroy 0 0, RcOp.destroy 0 0]) :=
  C1_refcount_balance.1 [RcOp.dup 0 0, RcOp.destroy 0 0, RcOp.destroy 0 0]
    [Mem.mk 5] []
    [NativeCall.retainMem 5, NativeCall.releaseMem 5, NativeCall.releaseMem 5]
    (by decide)

/-- C2: `check_status` maps the success code 0 to `Ok(())`, every other
integer recognized by the status enumeration to `Err` of exactly that status,
and panics on every unrecognized integer. -/
theorem C2_check_status (n : Int) :
    (n = 0 → check_status n = Outcome.ok ())
  ∧ (∀ s, CLStatus.fromI32 n = some s → s ≠ CLStatus.CL_SUCCESS →
      check_status n = Outcome.err s)
  ∧ (CLStatus.fromI32 n = none → check_status n = Outcome.panicked) := by
  refine ⟨?_, ?_, ?_⟩
  · intro h
    subst h
    exact check_status_zero
  · intro s h hs
    exact check_status_err n s h hs
  · intro h
    exact check_status_none n h

/-- C2 witness: concrete success, recognized error, and unrecognized codes. -/
theorem C2_check_status_witness :
    check_status 0 = Outcome.ok () ∧
    check_status (-1) = Outcome.err CLStatus.CL_DEVICE_NOT_FOUND ∧
    check_status (-999) = Outcome.panicked :=
  ⟨(C2_check_status 0).1 rfl,
   (C2_check_status (-1)).2.1 CLStatus.CL_DEVICE_NOT_FOUND (by decide) (by decide),
   (C2_check_status (-999)).2.2 (by decide)⟩

/-- C3: `try_clone` on `Mem`, `CommandQueue`, and `Context` issues exactly one
native retain call; on a success status it returns a new wrapper around the
same underlying handle (the original value is untouched); on a recognized
non-success status it returns `Err` of that status; and the infallible
`clone` panics whenever `try_clone` would return an error. -/
theorem C3_try_clone (st : Int) :
    (∀ m : Mem,
       (Mem.try_clone m st).2 = [NativeCall.retainMem m.raw]
       ∧ (st = 0 → (Mem.try_clone m st).1 = Outcome.ok ⟨m.raw⟩)
       ∧ (∀ e, CLStatus.fromI32 st = some e → e ≠ CLStatus.CL_SUCCESS →
           (Mem.try_clone m st).1 = Outcome.err e)
       ∧ (∀ e, (Mem.try_clone m st).1 = Outcome.err e →
           (Mem.clone m st).1 = PanicOr.panicked))
  ∧ (∀ q : CommandQueue,
       (CommandQueue.try_clone q st).2 = [NativeCall.retainCommandQueue q.raw]
       ∧ (st = 0 → (CommandQueue.try_clone q st).1 = Outcome.ok ⟨q.raw⟩)
       ∧ (∀ e, CLStatus.fromI32 st = some e → e ≠ CLStatus.CL_SUCCESS →
           (CommandQueue.try_clone q st).1 = Outcome.err e)
       ∧ (∀ e, (CommandQueue.try_clone q st).1 = Outcome.err e →
           (CommandQueue.clone q st).1 = PanicOr.panicked))
  ∧ (∀ c : Context,
       (Context.try_clone c st).2 = [NativeCall.retainContext c.raw]
       ∧ (st = 0 → (Context.try_clone c st).1 = Outcome.ok ⟨c.raw⟩)
       ∧ (∀ e, CLStatus.fromI32 st = some e → e ≠ CLStatus.CL_SUCCESS →
           (Context.try_clone c st).1 = Outcome.err e)
       ∧ (∀ e, (Context.try_clone c st).1 = Outcome.err e →
           (Context.clone c st).1 = PanicOr.panicked)) := by
  refine ⟨fun m => ⟨rfl, ?_, ?_, ?_⟩, fun q => ⟨rfl, ?_, ?_, ?_⟩,
    fun c => ⟨rfl, ?_, ?_, ?_⟩⟩
  · intro h
    subst h
    rfl
  · intro e he hne
    have hcs := check_status_err st e he hne
    simp only [Mem.try_clone, hcs]
  · intro e he
    cases hcs : check_status st with
    | ok u =>
      simp only [Mem.try_clone, hcs] at he
      exact Outcome.noConfusion he
    | err e2 => simp only [Mem.clone, Mem.try_clone, hcs]
    | panicked =>
      simp only [Mem.try_clone, hcs] at he
      exact Outcome.noConfusion he
  · intro h
    subst h
    rfl
  · intro e he hne
    have hcs := check_status_err st e he hne
    simp only [CommandQueue.try_clone, hcs]
  · intro e he
    cases hcs : check_status st with
    | ok u =>
      simp only [CommandQueue.try_clone, hcs] at he
      exact Outcome.noConfusion he
    | err e2 => simp only [CommandQueue.clone, CommandQueue.try_clone, hcs]
    | panicked =>
      simp only [CommandQueue.try_clone, hcs] at he
      exact Outcome.noConfusion he
  · intro h
    subst h
    rfl
  · intro e he hne
    have hcs := check_status_err st e he hne
    simp only [Context.try_clone, hcs]
  · intro e he
    cases hcs : check_status st with
    | ok u =>
      simp only [Context.try_clone, hcs] at he
      exact Outcome.noConfusion he
    | err e2 => simp only [Context.clone, Context.try_clone, hcs]
    | panicked =>
      simp only [Context.try_clone, hcs] at he
      exact Outcome.noConfusion he

/-- C3 witness: a `Mem` wrapper at handle 7 with a success retain and with a
failing retain (`CL_OUT_OF_RESOURCES`). -/
theorem C3_try_clone_witness :
    (Mem.try_clone ⟨7⟩ 0).2 = [NativeCall.retainMem 7] ∧
    (Mem.try_clone ⟨7⟩ 0).1 = Outcome.ok ⟨7⟩ ∧
    (Mem.try_clone ⟨7⟩ (-5)).1 = Outcome.err CLStatus.CL_OUT_OF_RESOURCES ∧
    (Mem.clone ⟨7⟩ (-5)).1 = PanicOr.panicked :=
  ⟨((C3_try_clone 0).1 ⟨7⟩).1,
   ((C3_try_clone 0).1 ⟨7⟩).2.1 rfl,
   ((C3_try_clone (-5)).1 ⟨7⟩).2.2.1 CLStatus.CL_OUT_OF_RESOURCES (by decide) (by decide),
   ((C3_try_clone (-5)).1 ⟨7⟩).2.2.2 CLStatus.CL_OUT_OF_RESOURCES (by decide)⟩

/-- C4: the destructor body of `Mem`, `CommandQueue`, and `Context` issues
exactly one native release call, succeeds silently on the success status, and
panics on every non-success status (recognized or not) instead of returning. -/
theorem C4_drop (st : Int) :
    (∀ m : Mem,
       (Mem.drop m st).2 = [NativeCall.releaseMem m.raw]
       ∧ (st = 0 → (Mem.drop m st).1 = PanicOr.ok ())
       ∧ (st ≠ 0 → (Mem.drop m st).1 = PanicOr.panicked))
  ∧ (∀ q : CommandQueue,
       (CommandQueue.drop q st).2 = [NativeCall.releaseCommandQueue q.raw]
       ∧ (st = 0 → (CommandQueue.drop q st).1 = PanicOr.ok ())
       ∧ (st ≠ 0 → (CommandQueue.drop q st).1 = PanicOr.panicked))
  ∧ (∀ c : Context,
       (Context.drop c st).2 = [NativeCall.releaseContext c.raw]
       ∧ (st = 0 → (Context.drop c st).1 = PanicOr.ok ())
       ∧ (st ≠ 0 → (Context.drop c st).1 = PanicOr.panicked)) := by
  refine ⟨fun m => ⟨rfl, ?_, ?_⟩, fun q => ⟨rfl, ?_, ?_⟩, fun c => ⟨rfl, ?_, ?_⟩⟩
  · intro h
    subst h
    rfl
  · intro hne
    rcases check_status_nonzero st hne with hp | ⟨e, hne2, he⟩
    · simp only [Mem.drop, hp]
    · simp only [Mem.drop, he]
  · intro h
    subst h
    rfl
  · intro hne
    rcases check_status_nonzero st hne with hp | ⟨e, hne2, he⟩
    · simp only [CommandQueue.drop, hp]
    · simp only [CommandQueue.drop, he]
  · intro h
    subst h
    rfl
  · intro hne
    rcases check_status_nonzero st hne with hp | ⟨e, hne2, he⟩
    · simp only [Context.drop, hp]
    · simp only [Context.drop, he]

/-- C4 witness: success release on a `Mem` wrapper; failing release
(`CL_INVALID_CONTEXT`) on a `Context` wrapper panics. -/
theorem C4_drop_witness :
    (Mem.drop ⟨7⟩ 0).2 = [NativeCall.releaseMem 7] ∧
    (Mem.drop ⟨7⟩ 0).1 = PanicOr.ok () ∧
    (Context.drop ⟨9⟩ (-34)).1 = PanicOr.panicked :=
  ⟨((C4_drop 0).1 ⟨7⟩).1,
   ((C4_drop 0).1 ⟨7⟩).2.1 rfl,
   ((C4_drop (-34)).2.2 ⟨9⟩).2.2 (by decide)⟩

/-- C5: the string-buffer decode used by every string property query checks
that the final byte is the null terminator, strips it, and validates the rest
as UTF-8: the buffer holding the bytes of the string OpenCL 1.2 followed by a
0 byte decodes to exactly those bytes with no error, while an empty buffer, a
buffer whose last byte is non-null, or invalid UTF-8 in the remainder all
panic rather than returning a recoverable error. -/
theorem C5_string_decode :
    (string_from_cstring_buf [79, 112, 101, 110, 67, 76, 32, 49, 46, 50, 0] =
       PanicOr.ok [79, 112, 101, 110, 67, 76, 32, 49, 46, 50])
  ∧ (string_from_cstring_buf [] = PanicOr.panicked)
  ∧ (∀ buf last, buf.getLast? = some last → last ≠ 0 →
       string_from_cstring_buf buf = PanicOr.panicked)
  ∧ (∀ buf, buf.getLast? = some 0 → utf8Valid buf.dropLast = false →
       string_from_cstring_buf buf = PanicOr.panicked) := by
  refine ⟨by decide, by decide, ?_, ?_⟩
  · intro buf last hlast hne
    unfold string_from_cstring_buf
    rw [hlast]
    cases last with
    | zero => exact absurd rfl hne
    | succ k => rfl
  · intro buf hlast hval
    unfold string_from_cstring_buf
    rw [hlast]
    show (if utf8Valid buf.dropLast then PanicOr.ok buf.dropLast else PanicOr.panicked) =
      PanicOr.panicked
    rw [hval]
    simp

/-- C5 witness: a buffer with no null terminator and a null-terminated buffer
whose remainder is invalid UTF-8 both panic. -/
theorem C5_string_decode_witness :
    string_from_cstring_buf [79, 80, 81] = PanicOr.panicked ∧
    string_from_cstring_buf [255, 0] = PanicOr.panicked :=
  ⟨C5_string_decode.2.2.1 [79, 80, 81] 81 (by decide) (by decide),
   C5_string_decode.2.2.2 [255, 0] (by decide) (by decide)⟩

/-- C6: the device-type query decodes the fixed-size 64-bit bit-field by
flag-set reconstruction: a raw value holding only the GPU bit yields a flag
set containing GPU and not CPU, while any 64-bit raw value with a bit outside
the known flag set (whose union is the low 32 bits, `ALL` being `0xFFFFFFFF`)
panics instead of returning. -/
theorem C6_device_type_decode (d : DeviceId) (env : FixedQueryEnv) :
    (env.status = 0 → env.value = device_type.GPU.bits →
       DeviceInfoDeviceType.get_device_info d env = Outcome.ok ⟨device_type.GPU.bits⟩
       ∧ DeviceType.contains ⟨device_type.GPU.bits⟩ device_type.GPU = true
       ∧ DeviceType.contains ⟨device_type.GPU.bits⟩ device_type.CPU = false)
  ∧ (env.status = 0 → env.value < 2 ^ 64 → 2 ^ 32 ≤ env.value →
       DeviceInfoDeviceType.get_device_info d env = Outcome.panicked) := by
  constructor
  · intro hst hval
    refine ⟨?_, by decide, by decide⟩
    unfold DeviceInfoDeviceType.get_device_info
    rw [hst, hval]
    decide
  · intro hst h64 h32
    have hconst : ((2 : Nat) ^ 64 - 1) ^^^ DeviceType.allFlagBits = (2 ^ 32 - 1) <<< 32 := by
      decide
    have hne : env.value &&& ((2 ^ 64 - 1) ^^^ DeviceType.allFlagBits) ≠ 0 := by
      rw [hconst]
      exact land_hi_ne_zero h64 h32
    have hfb : DeviceType.from_bits env.value = none := by
      unfold DeviceType.from_bits
      rw [if_pos hne]
    unfold DeviceInfoDeviceType.get_device_info
    rw [hst, check_status_zero, hfb]

/-- C6 witness: raw value 4 (the GPU bit) decodes to the GPU flag set; raw
value `2 ^ 32` (a bit above the known flags) panics. -/
theorem C6_device_type_decode_witness :
    DeviceInfoDeviceType.get_device_info ⟨1⟩ ⟨0, 4⟩ = Outcome.ok ⟨4⟩ ∧
    DeviceType.contains ⟨4⟩ device_type.GPU = true ∧
    DeviceType.contains ⟨4⟩ device_type.CPU = false ∧
    DeviceInfoDeviceType.get_device_info ⟨1⟩ ⟨0, 2 ^ 32⟩ = Outcome.panicked :=
  ⟨((C6_device_type_decode ⟨1⟩ ⟨0, 4⟩).1 rfl rfl).1,
   ((C6_device_type_decode ⟨1⟩ ⟨0, 4⟩).1 rfl rfl).2.1,
   ((C6_device_type_decode ⟨1⟩ ⟨0, 4⟩).1 rfl rfl).2.2,
   (C6_device_type_decode ⟨1⟩ ⟨0, 2 ^ 32⟩).2 rfl (by norm_num) (by norm_num)⟩

/-- C7: with the native response to an empty device list modelled from the
spec (a recognized, recoverable non-success status, `CL_INVALID_VALUE`),
`create_context` on an empty device list returns that typed error: it neither
succeeds nor panics. -/
theorem C7_create_context_empty (p : PlatformId) (env : CreateContextEnv)
    (h : env.errStatus = nativeCreateContextErr []) :
    (create_context p [] env).1 = Outcome.err CLStatus.CL_INVALID_VALUE
  ∧ (∀ c, (create_context p [] env).1 ≠ Outcome.ok c)
  ∧ (create_context p [] env).1 ≠ Outcome.panicked := by
  have h30 : env.errStatus = -30 := by rw [h]; rfl
  have hcs : check_status env.errStatus = Outcome.err CLStatus.CL_INVALID_VALUE := by
    rw [h30]
    decide
  have h1 : (create_context p [] env).1 = Outcome.err CLStatus.CL_INVALID_VALUE := by
    simp only [create_context, hcs]
  refine ⟨h1, ?_, ?_⟩
  · intro c hc
    rw [h1] at hc
    exact Outcome.noConfusion hc
  · intro hc
    rw [h1] at hc
    exact Outcome.noConfusion hc

/-- C7 witness: platform 1, the modelled native error status, any context
handle. -/
theorem C7_create_context_empty_witness :
    (create_context ⟨1⟩ [] ⟨-30, 0⟩).1 = Outcome.err CLStatus.CL_INVALID_VALUE ∧
    (create_context ⟨1⟩ [] ⟨-30, 0⟩).1 ≠ Outcome.panicked :=
  ⟨(C7_create_context_empty ⟨1⟩ ⟨-30, 0⟩ (by decide)).1,
   (C7_create_context_empty ⟨1⟩ ⟨-30, 0⟩ (by decide)).2.2⟩

/-- C8: every facade query accessor on `hl::Platform` and `hl::Device`
(name, version, profile, vendor, extensions, device enumeration, device type,
compute-unit count) turns a recoverable error from the underlying query into
a panic and passes a success value through unchanged, while
`hl::Platform::create_context` surfaces the low-level `Result` unchanged:
errors stay errors and are never turned into panics. -/
theorem C8_facade_error_policy :
    (∀ (p : hl.Platform) (env : TwoCallEnv),
       (∀ e, get_platform_info p.pid PlatformInfo.Name env = Outcome.err e →
          hl.Platform.name p env = PanicOr.panicked)
     ∧ (∀ s, get_platform_info p.pid PlatformInfo.Name env = Outcome.ok s →
          hl.Platform.name p env = PanicOr.ok s))
  ∧ (∀ (p : hl.Platform) (env : TwoCallEnv),
       (∀ e, get_platform_info p.pid PlatformInfo.Version env = Outcome.err e →
          hl.Platform.version p env = PanicOr.panicked)
     ∧ (∀ s, get_platform_info p.pid PlatformInfo.Version env = Outcome.ok s →
          hl.Platform.version p env = PanicOr.ok s))
  ∧ (∀ (p : hl.Platform) (env : TwoCallEnv),
       (∀ e, get_platform_info p.pid PlatformInfo.Profile env = Outcome.err e →
          hl.Platform.profile p env = PanicOr.panicked)
     ∧ (∀ s, get_platform_info p.pid PlatformInfo.Profile env = Outcome.ok s →
          hl.Platform.profile p env = PanicOr.ok s))
  ∧ (∀ (p : hl.Platform) (env : TwoCallEnv),
       (∀ e, get_platform_info p.pid PlatformInfo.Vendor env = Outcome.err e →
          hl.Platform.vendor p env = PanicOr.panicked)
     ∧ (∀ s, get_platform_info p.pid PlatformInfo.Vendor env = Outcome.ok s →
          hl.Platform.vendor p env = PanicOr.ok s))
  ∧ (∀ (p : hl.Platform) (env : TwoCallEnv),
       (∀ e, get_platform_info p.pid PlatformInfo.Extensions env = Outcome.err e →
          hl.Platform.extensions p env = PanicOr.panicked)
     ∧ (∀ s, get_platform_info p.pid PlatformInfo.Extensions env = Outcome.ok s →
          hl.Platform.extensions p env = PanicOr.ok s))
  ∧ (∀ (p : hl.Platform) (env : TwoCallEnv),
       ∀ e, (get_device_ids p.pid device_type.ALL env).1 = Outcome.err e →
          (hl.Platform.get_devices p env).1 = PanicOr.panicked)
  ∧ (∀ (d : hl.Device) (env : TwoCallEnv),
       (∀ e, DeviceInfoString.Name.get_device_info d.did env = Outcome.err e →
          hl.Device.name d env = PanicOr.panicked)
     ∧ (∀ s, DeviceInfoString.Name.get_device_info d.did env = Outcome.ok s →
          hl.Device.name d env = PanicOr.ok s))
  ∧ (∀ (d : hl.Device) (env : TwoCallEnv),
       (∀ e, DeviceInfoString.Profile.get_device_info d.did env = Outcome.err e →
          hl.Device.profile d env = PanicOr.panicked)
     ∧ (∀ s, DeviceInfoString.Profile.get_device_info d.did env = Outcome.ok s →
          hl.Device.profile d env = PanicOr.ok s))
  ∧ (∀ (d : hl.Device) (env : TwoCallEnv),
       (∀ e, DeviceInfoString.Vendor.get_device_info d.did env = Outcome.err e →
          hl.Device.vendor d env = PanicOr.panicked)
     ∧ (∀ s, DeviceInfoString.Vendor.get_device_info d.did env = Outcome.ok s →
          hl.Device.vendor d env = PanicOr.ok s))
  ∧ (∀ (d : hl.Device) (env : TwoCallEnv),
       (∀ e, DeviceInfoString.DeviceVersion.get_device_info d.did env = Outcome.err e →
          hl.Device.device_version d env = PanicOr.panicked)
     ∧ (∀ s, DeviceInfoString.DeviceVersion.get_device_info d.did env = Outcome.ok s →
          hl.Device.device_version d env = PanicOr.ok s))
  ∧ (∀ (d : hl.Device) (env : TwoCallEnv),
       (∀ e, DeviceInfoString.DriverVersion.get_device_info d.did env = Outcome.err e →
          hl.Device.driver_version d env = PanicOr.panicked)
     ∧ (∀ s, DeviceInfoString.DriverVersion.get_device_info d.did env = Outcome.ok s →
          hl.Device.driver_version d env = PanicOr.ok s))
  ∧ (∀ (d : hl.Device) (env : TwoCallEnv),
       (∀ e, DeviceInfoString.Extensions.get_device_info d.did env = Outcome.err e →
          hl.Device.extensions d env = PanicOr.panicked)
     ∧ (∀ s, DeviceInfoString.Extensions.get_device_info d.did env = Outcome.ok s →
          hl.Device.extensions d env = PanicOr.ok s))
  ∧ (∀ (d : hl.Device) (env : FixedQueryEnv),
       (∀ e, DeviceInfoDeviceType.get_device_info d.did env = Outcome.err e →
          hl.Device.device_type d env = PanicOr.panicked)
     ∧ (∀ dt, DeviceInfoDeviceType.get_device_info d.did env = Outcome.ok dt →
          hl.Device.device_type d env = PanicOr.ok dt))
  ∧ (∀ (d : hl.Device) (env : FixedQueryEnv),
       (∀ e, DeviceInfoClUint.MaxComputeUnits.get_device_info d.did env = Outcome.err e →
          hl.Device.num_compute_units d env = PanicOr.panicked)
     ∧ (∀ v, DeviceInfoClUint.MaxComputeUnits.get_device_info d.did env = Outcome.ok v →
          hl.Device.num_compute_units d env = PanicOr.ok v))
  ∧ (∀ (p : hl.Platform) (devs : List hl.Device) (env : CreateContextEnv),
       (∀ e, (create_context p.pid (devs.map hl.Device.did) env).1 = Outcome.err e →
          (hl.Platform.create_context p devs env).1 = Outcome.err e)
     ∧ (∀ c, (create_context p.pid (devs.map hl.Device.did) env).1 = Outcome.ok c →
          (hl.Platform.create_context p devs env).1 = Outcome.ok ⟨c⟩)
     ∧ ((create_context p.pid (devs.map hl.Device.did) env).1 ≠ Outcome.panicked →
          (hl.Platform.create_context p devs env).1 ≠ Outcome.panicked)) := by
  refine ⟨fun p env => ⟨fun e h => unwrapR_err h, fun s h => unwrapR_ok h⟩,
    fun p env => ⟨fun e h => unwrapR_err h, fun s h => unwrapR_ok h⟩,
    fun p env => ⟨fun e h => unwrapR_err h, fun s h => unwrapR_ok h⟩,
    fun p env => ⟨fun e h => unwrapR_err h, fun s h => unwrapR_ok h⟩,
    fun p env => ⟨fun e h => unwrapR_err h, fun s h => unwrapR_ok h⟩,
    fun p env e h => ?_,
    fun d env => ⟨fun e h => unwrapR_err h, fun s h => unwrapR_ok h⟩,
    fun d env => ⟨fun e h => unwrapR_err h, fun s h => unwrapR_ok h⟩,
    fun d env => ⟨fun e h => unwrapR_err h, fun s h => unwrapR_ok h⟩,
    fun d env => ⟨fun e h => unwrapR_err h, fun s h => unwrapR_ok h⟩,
    fun d env => ⟨fun e h => unwrapR_err h, fun s h => unwrapR_ok h⟩,
    fun d env => ⟨fun e h => unwrapR_err h, fun s h => unwrapR_ok h⟩,
    fun d env => ⟨fun e h => unwrapR_err h, fun dt h => unwrapR_ok h⟩,
    fun d env => ⟨fun e h => unwrapR_err h, fun v h => unwrapR_ok h⟩,
    fun p devs env => ⟨fun e h => ?_, fun c h => ?_, fun hnp => ?_⟩⟩
  · show PanicOr.map (List.map hl.Device.mk)
      (unwrapR (get_device_ids p.pid device_type.ALL env).1) = PanicOr.panicked
    rw [unwrapR_err h]
    rfl
  · show Outcome.map hl.Context.mk
      (create_context p.pid (devs.map hl.Device.did) env).1 = Outcome.err e
    rw [h]
    rfl
  · show Outcome.map hl.Context.mk
      (create_context p.pid (devs.map hl.Device.did) env).1 = Outcome.ok ⟨c⟩
    rw [h]
    rfl
  · intro hcl
    apply hnp
    have h2 : Outcome.map hl.Context.mk
        (create_context p.pid (devs.map hl.Device.did) env).1 = Outcome.panicked := hcl
    cases hc : (create_context p.pid (devs.map hl.Device.did) env).1 with
    | ok c =>
      rw [hc] at h2
      exact Outcome.noConfusion h2
    | err e =>
      rw [hc] at h2
      exact Outcome.noConfusion h2
    | panicked => rfl

/-- C8 witness: a failing platform-name query panics at the facade, while a
failing context construction is returned as the same typed error. -/
theorem C8_facade_error_policy_witness :
    hl.Platform.name ⟨⟨1⟩⟩ ⟨-30, 0, 0, []⟩ = PanicOr.panicked ∧
    (hl.Platform.create_context ⟨⟨1⟩⟩ [] ⟨-6, 0⟩).1 =
      Outcome.err CLStatus.CL_OUT_OF_HOST_MEMORY :=
  ⟨(C8_facade_error_policy.1 ⟨⟨1⟩⟩ ⟨-30, 0, 0, []⟩).1
     CLStatus.CL_INVALID_VALUE (by decide),
   (C8_facade_error_policy.2.2.2.2.2.2.2.2.2.2.2.2.2.2 ⟨⟨1⟩⟩ [] ⟨-6, 0⟩).1
     CLStatus.CL_OUT_OF_HOST_MEMORY (by decide)⟩

/-- C9: `get_platform_ids` performs the two-call idiom — one count query,
then one fill call over a buffer of exactly the reported count — and, when
both native calls succeed, returns exactly the identifiers the native layer
wrote, in order; a reported count of zero yields `Ok` of the empty list, not
an error. -/
theorem C9_get_platform_ids (env : TwoCallEnv)
    (h1 : env.sizeStatus = 0) (h2 : env.fillStatus = 0) :
    (get_platform_ids env).2 =
        [NativeCall.getPlatformIDsCount, NativeCall.getPlatformIDsFill env.size]
  ∧ (∃ ids, (get_platform_ids env).1 = Outcome.ok ids ∧ ids.length = env.size)
  ∧ (env.written.length = env.size →
       (get_platform_ids env).1 = Outcome.ok (env.written.map PlatformId.mk))
  ∧ (env.size = 0 → (get_platform_ids env).1 = Outcome.ok []) := by
  have hred : get_platform_ids env =
      (Outcome.ok ((fillBuf env.size env.written).map PlatformId.mk),
       [NativeCall.getPlatformIDsCount, NativeCall.getPlatformIDsFill env.size]) := by
    unfold get_platform_ids
    simp only [h1, h2, check_status_zero]
  refine ⟨by rw [hred],
    ⟨(fillBuf env.size env.written).map PlatformId.mk, by rw [hred],
     by simp [fillBuf_length]⟩, ?_, ?_⟩
  · intro hw
    rw [hred, fillBuf_of_length_eq hw]
  · intro hz
    rw [hred, hz]
    simp [fillBuf]

/-- C9 witness: two native platforms at handles 10 and 20, and the
zero-platform case. -/
theorem C9_get_platform_ids_witness :
    (get_platform_ids ⟨0, 2, 0, [10, 20]⟩).1 =
        Outcome.ok [PlatformId.mk 10, PlatformId.mk 20] ∧
    (get_platform_ids ⟨0, 0, 0, []⟩).1 = Outcome.ok [] :=
  ⟨(C9_get_platform_ids ⟨0, 2, 0, [10, 20]⟩ rfl rfl).2.2.1 (by decide),
   (C9_get_platform_ids ⟨0, 0, 0, []⟩ rfl rfl).2.2.2 rfl⟩

/-- C10: the facade device enumeration always passes the `ALL` device-type
filter to the low-level enumeration — its native calls are exactly those of
`get_device_ids` with `ALL`, every device-enumeration call in its trace
carries the `ALL` bits, and its result is the (unwrapped) `ALL`-filtered
result; the facade method itself takes no device-type parameter. -/
theorem C10_get_devices_all_filter (p : hl.Platform) (env : TwoCallEnv) :
    (hl.Platform.get_devices p env).2 = (get_device_ids p.pid device_type.ALL env).2
  ∧ (∀ c ∈ (hl.Platform.get_devices p env).2,
       c = NativeCall.getDeviceIDsCount p.pid.raw device_type.ALL.bits ∨
       c = NativeCall.getDeviceIDsFill p.pid.raw device_type.ALL.bits env.size)
  ∧ (∀ ids, (get_device_ids p.pid device_type.ALL env).1 = Outcome.ok ids →
       (hl.Platform.get_devices p env).1 = PanicOr.ok (ids.map hl.Device.mk)) := by
  refine ⟨rfl, ?_, ?_⟩
  · intro c hc
    have hc2 : c ∈ (get_device_ids p.pid device_type.ALL env).2 := hc
    rcases get_device_ids_trace p.pid device_type.ALL env with h | h
    · rw [h] at hc2
      simp at hc2
      exact Or.inl hc2
    · rw [h] at hc2
      simp at hc2
      rcases hc2 with h1 | h1
      · exact Or.inl h1
      · exact Or.inr h1
  · intro ids hok
    show PanicOr.map (List.map hl.Device.mk)
      (unwrapR (get_device_ids p.pid device_type.ALL env).1) = PanicOr.ok (ids.map hl.Device.mk)
    rw [unwrapR_ok hok]
    rfl

/-- C10 witness: platform 3, one native device at handle 42. -/
theorem C10_get_devices_all_filter_witness :
    (hl.Platform.get_devices ⟨⟨3⟩⟩ ⟨0, 1, 0, [42]⟩).1 =
        PanicOr.ok [hl.Device.mk ⟨42⟩] ∧
    (NativeCall.getDeviceIDsCount 3 device_type.ALL.bits =
        NativeCall.getDeviceIDsCount 3 device_type.ALL.bits ∨
      NativeCall.getDeviceIDsCount 3 device_type.ALL.bits =
        NativeCall.getDeviceIDsFill 3 device_type.ALL.bits 1) :=
  ⟨(C10_get_devices_all_filter ⟨⟨3⟩⟩ ⟨0, 1, 0, [42]⟩).2.2 [⟨42⟩] (by decide),
   (C10_get_devices_all_filter ⟨⟨3⟩⟩ ⟨0, 1, 0, [42]⟩).2.1
     (NativeCall.getDeviceIDsCount 3 device_type.ALL.bits) (by decide)⟩
